import Mathlib

/-!
Verification of the tolinku/web-sdk core: the resilient HTTP request layer
(`HttpClient`: `fetchWithRetry`, `computeDelay`, facade error translation)
and the event batching engine (`Analytics`: `track`, `flush`, `flushBeacon`,
`destroy`), shallowly embedded from `src/client.ts` and `src/analytics.ts`.

Asynchrony is resolved by passing the environment's behaviour explicitly:
the outcome of each network attempt, whether the abort signal fires during a
given retry sleep, the outcome of a batch POST, and the events tracked while
a flush's round trip is outstanding are all inputs to the embedded functions.
-/

namespace Tolinku

/-! ## Constants (src/client.ts, src/analytics.ts) -/

def MAX_RETRIES : Nat := 3
def BASE_DELAY_MS : ℚ := 500
def MAX_JITTER_MS : ℚ := 250
def BATCH_SIZE : Nat := 10
def FLUSH_INTERVAL_MS : Nat := 5000
def MAX_QUEUE_SIZE : Nat := 1000

/-! ## Responses and the Retry-After header

`res.headers.get('Retry-After')` followed by `Number(...)` is embedded as a
three-way classification: header absent (or the empty string, which the
`if (retryAfter)` truthiness test skips before parsing), header present but
not parsing to a number (`Number` gives `NaN`), or header parsing to the
rational `seconds`. -/

inductive RetryAfter where
  | absent : RetryAfter
  | notANumber : RetryAfter
  | value (seconds : ℚ) : RetryAfter
deriving DecidableEq, Repr

/-- A received HTTP response: its status, status text, and Retry-After
classification (`Response` in the fetch API, as used by client.ts). -/
structure Resp where
  status : Nat
  statusText : String
  retryAfter : RetryAfter
deriving DecidableEq, Repr

/-- `Response.ok`: status in the inclusive range 200..299. -/
def respOk (s : Nat) : Bool := 200 ≤ s && s < 300

/-- The condition under which `fetchWithRetry` returns a response
immediately: `res.ok || (res.status >= 400 && res.status < 500 &&
res.status !== 429)`. -/
def returnImmediately (s : Nat) : Bool :=
  respOk s || (400 ≤ s && s < 500 && s != 429)

/-! ## Backoff calculator (`HttpClient.computeDelay`)

`random` stands for the value produced by `Math.random()`; the jitter term
is `random * MAX_JITTER_MS`. Delays are rationals (milliseconds). -/

/-- Embeds `computeDelay(attempt, res?)`: on a 429 carrying a Retry-After
header that parses to a number strictly greater than zero, return
`seconds * 1000`; otherwise `BASE_DELAY_MS * 2^attempt + random * MAX_JITTER_MS`. -/
def computeDelay (attempt : Nat) (res : Option Resp) (random : ℚ) : ℚ :=
  match res with
  | some r =>
    if r.status = 429 then
      match r.retryAfter with
      | RetryAfter.value seconds =>
        if 0 < seconds then seconds * 1000
        else BASE_DELAY_MS * 2 ^ attempt + random * MAX_JITTER_MS
      | _ => BASE_DELAY_MS * 2 ^ attempt + random * MAX_JITTER_MS
    else BASE_DELAY_MS * 2 ^ attempt + random * MAX_JITTER_MS
  | none => BASE_DELAY_MS * 2 ^ attempt + random * MAX_JITTER_MS

/-! ## The retry executor (`HttpClient.fetchWithRetry`)

Each loop iteration awaits `fetch(url, init)`; the environment decides its
outcome: a response, a network error (fetch rejects), or an abort
(rejection with a `DOMException` named `AbortError`). If a retry sleep is
entered, the environment decides whether the shared abort signal fires
during that sleep (`sleep` then rejects with an `AbortError`). The computed
delay's magnitude does not influence control flow, only whether the signal
aborts during the sleep does, so the executor takes `fetches : Nat →
FetchOutcome` (outcome of the call made with attempt counter `i`) and
`sleepAborts : Nat → Bool` (whether the sleep after attempt `i` is
aborted). -/

inductive FetchOutcome where
  | resp (r : Resp) : FetchOutcome
  | netErr (msg : String) : FetchOutcome
  | abortErr : FetchOutcome
deriving DecidableEq, Repr

inductive ExecResult where
  | response (r : Resp) : ExecResult
  | abortError : ExecResult
  | networkError (msg : String) : ExecResult
deriving DecidableEq, Repr

/-- The loop of `fetchWithRetry`, by remaining iterations: `fuel` counts the
loop iterations still allowed including the current one (the source loop
runs `attempt = 0 .. MAX_RETRIES`, so it starts at `MAX_RETRIES + 1`), and
`attempt = 0` at the first call. `attempt < MAX_RETRIES` in the source is
`fuel ≠ 1`, i.e. the `Nat.succ fuel` pattern below with `fuel ≠ 0`. The
second component counts network calls performed. Falling out of the loop
(fuel exhausted after a network error) reaches `throw lastError`; the
`fuel = 0` base case is unreachable from the entry point. -/
def fetchLoop (fetches : Nat → FetchOutcome) (sleepAborts : Nat → Bool) :
    Nat → Nat → ExecResult × Nat
  | _, 0 => (ExecResult.networkError "", 0)
  | attempt, fuel + 1 =>
    match fetches attempt with
    | FetchOutcome.resp r =>
      -- Successful or non-retryable 4xx: return immediately
      if returnImmediately r.status then (ExecResult.response r, 1)
      -- Out of retries: return the last response
      else if fuel = 0 then (ExecResult.response r, 1)
      -- Retryable status (429 or 5xx): sleep (may abort), then retry
      else if sleepAborts attempt then (ExecResult.abortError, 1)
      else
        let rest := fetchLoop fetches sleepAborts (attempt + 1) fuel
        (rest.1, rest.2 + 1)
    | FetchOutcome.netErr msg =>
      -- Network error: out of retries means the loop ends and lastError is thrown
      if fuel = 0 then (ExecResult.networkError msg, 1)
      else if sleepAborts attempt then (ExecResult.abortError, 1)
      else
        let rest := fetchLoop fetches sleepAborts (attempt + 1) fuel
        (rest.1, rest.2 + 1)
    | FetchOutcome.abortErr =>
      -- AbortError: do not retry, propagate immediately
      (ExecResult.abortError, 1)

/-- `fetchWithRetry`: run the loop from attempt 0 with `MAX_RETRIES + 1`
allowed iterations. Returns the outcome and the number of network calls. -/
def fetchWithRetry (fetches : Nat → FetchOutcome) (sleepAborts : Nat → Bool) :
    ExecResult × Nat :=
  fetchLoop fetches sleepAborts 0 (MAX_RETRIES + 1)

/-- An outcome on which the executor would retry (rather than return or
propagate): a network error, or a response that is neither a success nor a
non-retryable 4xx. -/
def retryableOutcome : FetchOutcome → Bool
  | FetchOutcome.resp r => !(returnImmediately r.status)
  | FetchOutcome.netErr _ => true
  | FetchOutcome.abortErr => false

/-! ## Facade error translation (`HttpClient.get` / `post` / `getPublic` /
`postPublic`)

After the executor returns a response with `!res.ok`, the facade runs
`const data = await res.json().catch(() => ({ error: res.statusText }))`
and throws `new TolinkuError(data.error || res.statusText, res.status,
data.code)`. The parsed error body is embedded as `Option ErrBody`
(`none` = `res.json()` rejected); `||` falls through on a missing or empty
`error` field. -/

structure ErrBody where
  error : Option String
  code : Option String
deriving DecidableEq, Repr

structure TolinkuError where
  message : String
  status : Nat
  code : Option String
deriving DecidableEq, Repr

/-- Builds the `TolinkuError` thrown for a non-ok response `r` whose JSON
body parsed to `parsed` (or failed to parse when `parsed = none`). -/
def mkTolinkuError (r : Resp) (parsed : Option ErrBody) : TolinkuError :=
  match parsed with
  | some b =>
    { message := match b.error with
        | some e => if e = "" then r.statusText else e
        | none => r.statusText
      status := r.status
      code := b.code }
  | none => { message := r.statusText, status := r.status, code := none }

/-- The facade's post-processing of the executor's final response: `none`
for an ok response (the body is then parsed as the result), otherwise the
`TolinkuError` it throws. -/
def facadeSurface (r : Resp) (parsed : Option ErrBody) : Option TolinkuError :=
  if respOk r.status then none else some (mkTolinkuError r parsed)

/-! ## The event batcher (`Analytics`, src/analytics.ts)

State: the in-memory queue, whether the one-shot flush timer is armed
(`flushTimer !== null`), and whether the beforeunload handler is attached.
A flush awaits one batch POST; its outcome is an input (`post`), as is the
list of events pushed by `track` calls that interleave with that round trip
(`arrivals` — they are appended to the drained queue while the POST is
outstanding). -/

structure QueuedEvent where
  event_type : String
  properties : List (String × String)
deriving DecidableEq, Repr

structure AnalyticsState where
  queue : List QueuedEvent
  flushTimer : Bool
  unloadHandler : Bool
deriving DecidableEq, Repr

/-- The server's batch response body `{ ok, accepted?, errors? }`. -/
structure BatchResp where
  ok : Bool
  accepted : Option Nat
  errors : List String
deriving DecidableEq, Repr

/-- Drop-oldest bound applied after a failed flush re-queues its snapshot:
`if (queue.length > MAX_QUEUE_SIZE) queue.splice(0, queue.length -
MAX_QUEUE_SIZE)` removes the first (oldest) elements, keeping the newest
`MAX_QUEUE_SIZE`. -/
def truncateQueue (l : List QueuedEvent) : List QueuedEvent :=
  if l.length > MAX_QUEUE_SIZE then l.drop (l.length - MAX_QUEUE_SIZE) else l

/-- The state transformation of `Analytics.flush`: clear any pending timer,
no-op on an empty queue, otherwise drain the whole queue (`splice(0)`) as
the snapshot and await the POST. On success the snapshot is discarded (a
server-reported partial-failure list is only logged) and the queue holds
just the events that arrived during the round trip; on failure the snapshot
is `unshift`ed back in front of the arrivals and the drop-oldest bound is
enforced.

Timer after the round trip: `flush` itself clears the timer before the
`await` and never re-arms it, but a `track()` interleaved during the
outstanding POST finds the spliced-empty queue and the cleared timer, so
pushing the first arrival is a 0-to-1 transition that arms the timer, and
neither the success path nor the `catch` clears it again — hence the timer
ends armed exactly when `arrivals` is non-empty. (Granularity: each
interleaved `track` stays below the batch threshold and the re-armed timer
does not fire before the POST settles; deeper interleavings are separate
steps of the state machine.) -/
def flushRun (st : AnalyticsState) (post : Except String BatchResp)
    (arrivals : List QueuedEvent) : AnalyticsState :=
  let st1 : AnalyticsState :=
    { queue := st.queue, flushTimer := false, unloadHandler := st.unloadHandler }
  if st1.queue.isEmpty then st1
  else
    let events := st1.queue
    let timer := !arrivals.isEmpty
    match post with
    | Except.ok _ =>
      { queue := arrivals, flushTimer := timer, unloadHandler := st.unloadHandler }
    | Except.error _ =>
      { queue := truncateQueue (events ++ arrivals), flushTimer := timer,
        unloadHandler := st.unloadHandler }

/-- `Analytics.flush` as observed by its caller: the entire body after the
empty-queue check is a `try`/`catch` whose `catch` swallows the POST
failure and re-queues, so the promise always resolves — the `Except` layer
records that no exception escapes. -/
def flush (st : AnalyticsState) (post : Except String BatchResp)
    (arrivals : List QueuedEvent) : Except String AnalyticsState :=
  Except.ok (flushRun st post arrivals)

/-! ### Event-name validation (`Analytics.track`) -/

/-- Embeds `eventType.trim().length === 0`: true exactly when every
character of the string is whitespace (so also for the empty string). -/
def trimEmpty (s : String) : Bool :=
  s.data.all Char.isWhitespace

/-- Embeds `eventType.startsWith('custom.')`, over the character list. -/
def startsWithCustom (s : String) : Bool :=
  s.data.take 7 = "custom.".data

/-- A character allowed after the `custom.` marker by the source regex
`/^custom\.[a-z0-9_]+$/`: ASCII lowercase letter, digit, or underscore. -/
def isEventNameChar (c : Char) : Bool :=
  ('a' ≤ c && c ≤ 'z') || ('0' ≤ c && c ≤ '9') || c = '_'

/-- Whether a string matches `/^custom\.[a-z0-9_]+$/`: it starts with the
7-character `custom.` and the (non-empty) remainder consists solely of
allowed characters. -/
def eventNameMatches (s : String) : Bool :=
  startsWithCustom s && !(s.data.drop 7).isEmpty && (s.data.drop 7).all isEventNameChar

/-- The auto-prefixing step of `track`: a name not starting with `custom.`
has it prepended; a name already starting with it is kept unchanged. -/
def canonicalEventName (eventType : String) : String :=
  if startsWithCustom eventType then eventType else "custom." ++ eventType

/-- `Analytics.track(eventType, properties?)`. Validation happens before
any queuing: an empty-after-trim name, or a canonical name failing the
regex, throws synchronously (`Except.error`) with the queue untouched.
Otherwise the event is pushed to the tail; the one-shot flush timer is
armed when the push made the queue length 1 and no timer was armed; and if
the queue has reached `BATCH_SIZE` the triggered flush runs (its POST
outcome and round-trip arrivals are the extra inputs, unused otherwise).
The non-string-argument guard of the source (`typeof eventType !==
'string'`) is outside this embedding: `eventType` is a string by type. -/
def track (st : AnalyticsState) (eventType : String)
    (properties : List (String × String)) (post : Except String BatchResp)
    (arrivals : List QueuedEvent) : Except String AnalyticsState :=
  if trimEmpty eventType then
    Except.error "Tolinku: event name must be a non-empty string"
  else
    let name := canonicalEventName eventType
    if !eventNameMatches name then
      Except.error ("Tolinku: event name \x22" ++ name ++ "\x22 is invalid")
    else
      let q := st.queue ++ [{ event_type := name, properties := properties }]
      let timer := if q.length = 1 && !st.flushTimer then true else st.flushTimer
      let st1 : AnalyticsState :=
        { queue := q, flushTimer := timer, unloadHandler := st.unloadHandler }
      if q.length ≥ BATCH_SIZE then flush st1 post arrivals else Except.ok st1

/-! ### The reachable-state machine

Steps of the batcher between which its state persists: a `track` call, a
caller-invoked `flush`, and the firing of the armed timer (the timeout
callback sets `flushTimer = null` and then calls `flush()`; it can only run
while armed). A step that throws (validation) leaves the state unchanged. -/

inductive AStep where
  | trackS (eventType : String) (properties : List (String × String))
      (post : Except String BatchResp) (arrivals : List QueuedEvent) : AStep
  | flushS (post : Except String BatchResp) (arrivals : List QueuedEvent) : AStep
  | timerS (post : Except String BatchResp) (arrivals : List QueuedEvent) : AStep

def applyStep (st : AnalyticsState) : AStep → AnalyticsState
  | AStep.trackS n p post arr =>
    match track st n p post arr with
    | Except.ok s => s
    | Except.error _ => st
  | AStep.flushS post arr =>
    match flush st post arr with
    | Except.ok s => s
    | Except.error _ => st
  | AStep.timerS post arr =>
    if st.flushTimer then
      match flush { queue := st.queue, flushTimer := false,
                    unloadHandler := st.unloadHandler } post arr with
      | Except.ok s => s
      | Except.error _ => st
    else st

/-- A fresh batcher: empty queue, no timer, unload handler attached by the
constructor (browser environment). -/
def initState : AnalyticsState :=
  { queue := [], flushTimer := false, unloadHandler := true }

def runSteps (st : AnalyticsState) (steps : List AStep) : AnalyticsState :=
  List.foldl applyStep st steps

/-! ### Teardown delivery (`Analytics.flushBeacon`, `Analytics.destroy`)

`flushBeacon` drains the queue first and only then checks whether
`navigator.sendBeacon` exists; a missing beacon, like a `sendBeacon` call
returning `false`, discards the drained events (nothing is re-queued and
the boolean result is ignored). The second component is the payload handed
to `sendBeacon`, when the call happens. -/

def flushBeacon (st : AnalyticsState) (beaconAvailable : Bool) :
    AnalyticsState × Option (List QueuedEvent) :=
  if st.queue.isEmpty then (st, none)
  else
    let events := st.queue
    let st1 : AnalyticsState :=
      { queue := [], flushTimer := st.flushTimer, unloadHandler := st.unloadHandler }
    if beaconAvailable then (st1, some events) else (st1, none)

/-- `Analytics.destroy`: best-effort beacon flush, then clear any pending
timer, then detach the beforeunload handler. -/
def destroy (st : AnalyticsState) (beaconAvailable : Bool) :
    AnalyticsState × Option (List QueuedEvent) :=
  let res := flushBeacon st beaconAvailable
  ({ queue := res.1.queue, flushTimer := false, unloadHandler := false }, res.2)

/-! ## Shared lemmas about the retry executor -/

lemma returnImmediately_false_of_5xx (s : Nat) (h1 : 500 ≤ s) (h2 : s ≤ 599) :
    returnImmediately s = false := by
  simp [returnImmediately, respOk]
  omega

lemma returnImmediately_true_of_plain_4xx (s : Nat) (h1 : 400 ≤ s) (h2 : s < 500)
    (h3 : s ≠ 429) : returnImmediately s = true := by
  simp [returnImmediately, respOk]
  omega

/-- One retryable iteration with a quiet sleep recurses with the attempt
counter incremented, adding one network call. -/
lemma fetchLoop_retry_step (f : Nat → FetchOutcome) (sl : Nat → Bool) (a fuel : Nat)
    (hr : retryableOutcome (f a) = true) (hs : sl a = false) (hf : fuel ≠ 0) :
    fetchLoop f sl a (fuel + 1) =
      ((fetchLoop f sl (a + 1) fuel).1, (fetchLoop f sl (a + 1) fuel).2 + 1) := by
  cases h : f a with
  | resp r =>
    rw [h] at hr
    simp [retryableOutcome] at hr
    simp [fetchLoop, h, hr, hs, hf]
  | netErr m => simp [fetchLoop, h, hs, hf]
  | abortErr => rw [h] at hr; simp [retryableOutcome] at hr

/-- An aborted fetch ends the logical request at once with one call made
in this iteration. -/
lemma fetchLoop_abort_now (f : Nat → FetchOutcome) (sl : Nat → Bool) (a fuel : Nat)
    (hf : fuel ≠ 0) (h : f a = FetchOutcome.abortErr) :
    fetchLoop f sl a fuel = (ExecResult.abortError, 1) := by
  cases fuel with
  | zero => exact absurd rfl hf
  | succ n => simp [fetchLoop, h]

/-- An abort firing during the retry sleep ends the logical request: the
sleep rejects with the cancellation error and no further call is issued. -/
lemma fetchLoop_sleep_abort (f : Nat → FetchOutcome) (sl : Nat → Bool) (a fuel : Nat)
    (hr : retryableOutcome (f a) = true) (hs : sl a = true) (hf : fuel ≠ 0) :
    fetchLoop f sl a (fuel + 1) = (ExecResult.abortError, 1) := by
  cases h : f a with
  | resp r =>
    rw [h] at hr
    simp [retryableOutcome] at hr
    simp [fetchLoop, h, hr, hs, hf]
  | netErr m => simp [fetchLoop, h, hs, hf]
  | abortErr => rw [h] at hr; simp [retryableOutcome] at hr

/-- A response on which no retry applies is returned with one call made. -/
lemma fetchLoop_return_now (f : Nat → FetchOutcome) (sl : Nat → Bool) (a fuel : Nat)
    (r : Resp) (h : f a = FetchOutcome.resp r) (hok : returnImmediately r.status = true) :
    fetchLoop f sl a (fuel + 1) = (ExecResult.response r, 1) := by
  simp [fetchLoop, h, hok]

/-- On the last allowed iteration any received response is returned. -/
lemma fetchLoop_last_resp (f : Nat → FetchOutcome) (sl : Nat → Bool) (a : Nat)
    (r : Resp) (h : f a = FetchOutcome.resp r) :
    fetchLoop f sl a 1 = (ExecResult.response r, 1) := by
  by_cases hok : returnImmediately r.status = true
  · simp [fetchLoop, h, hok]
  · simp [fetchLoop, h, hok]

/-! ## Claim theorems: HTTP layer -/

/-- C1: for every logical request in which every network attempt yields a
5xx response (and the shared handle is never aborted), `fetchWithRetry`
performs exactly `MAX_RETRIES + 1 = 4` network calls and returns the fourth
(last) response unchanged; the facade then surfaces it as a `TolinkuError`
carrying that response's status. -/
theorem C1_all_5xx_four_calls_last_response
    (fetches : Nat → FetchOutcome) (sleepAborts : Nat → Bool) (r0 r1 r2 r3 : Resp)
    (h0 : fetches 0 = FetchOutcome.resp r0) (h1 : fetches 1 = FetchOutcome.resp r1)
    (h2 : fetches 2 = FetchOutcome.resp r2) (h3 : fetches 3 = FetchOutcome.resp r3)
    (s0 : 500 ≤ r0.status ∧ r0.status ≤ 599) (s1 : 500 ≤ r1.status ∧ r1.status ≤ 599)
    (s2 : 500 ≤ r2.status ∧ r2.status ≤ 599) (s3 : 500 ≤ r3.status ∧ r3.status ≤ 599)
    (hs : ∀ i, sleepAborts i = false) :
    fetchWithRetry fetches sleepAborts = (ExecResult.response r3, MAX_RETRIES + 1) ∧
    ∀ parsed, ∃ err, facadeSurface r3 parsed = some err ∧ err.status = r3.status := by
  have ro : ∀ i r, fetches i = FetchOutcome.resp r → 500 ≤ r.status → r.status ≤ 599 →
      retryableOutcome (fetches i) = true := by
    intro i r hi hl hu
    rw [hi]
    simp [retryableOutcome, returnImmediately_false_of_5xx r.status hl hu]
  constructor
  · show fetchLoop fetches sleepAborts 0 4 = (ExecResult.response r3, 4)
    rw [show (4:Nat) = 3 + 1 from rfl,
      fetchLoop_retry_step fetches sleepAborts 0 3 (ro 0 r0 h0 s0.1 s0.2) (hs 0) (by omega),
      show (3:Nat) = 2 + 1 from rfl,
      fetchLoop_retry_step fetches sleepAborts 1 2 (ro 1 r1 h1 s1.1 s1.2) (hs 1) (by omega),
      show (2:Nat) = 1 + 1 from rfl,
      fetchLoop_retry_step fetches sleepAborts 2 1 (ro 2 r2 h2 s2.1 s2.2) (hs 2) (by omega),
      fetchLoop_last_resp fetches sleepAborts 3 r3 h3]
  · intro parsed
    have hnotok : respOk r3.status = false := by
      simp [respOk]
      omega
    exact ⟨mkTolinkuError r3 parsed, by simp [facadeSurface, hnotok],
      by cases parsed <;> rfl⟩

/-- Witness for C1: four straight 5xx responses (500, 502, 503, 500) give
four calls and the final 500 response; the facade surfaces status 500. -/
theorem C1_witness :
    fetchWithRetry
      (fun i => FetchOutcome.resp
        ⟨if i = 1 then 502 else if i = 2 then 503 else 500, "Server Error", RetryAfter.absent⟩)
      (fun _ => false)
      = (ExecResult.response ⟨500, "Server Error", RetryAfter.absent⟩, MAX_RETRIES + 1) ∧
    ∀ parsed, ∃ err,
      facadeSurface ⟨500, "Server Error", RetryAfter.absent⟩ parsed = some err ∧
      err.status = (⟨500, "Server Error", RetryAfter.absent⟩ : Resp).status :=
  C1_all_5xx_four_calls_last_response _ _
    ⟨500, "Server Error", RetryAfter.absent⟩ ⟨502, "Server Error", RetryAfter.absent⟩
    ⟨503, "Server Error", RetryAfter.absent⟩ ⟨500, "Server Error", RetryAfter.absent⟩
    rfl rfl rfl rfl (by decide) (by decide) (by decide) (by decide) (fun i => rfl)

/-- C5 counterexample: a 429 whose `Retry-After` header is the numeric
seconds value `0` carries a numeric-seconds hint, yet the computed delay is
the exponential fallback `500`, not `hint * 1000 = 0` — the source honours
the hint only when it is strictly positive. -/
theorem C5_counterexample :
    computeDelay 0 (some ⟨429, "Too Many Requests", RetryAfter.value 0⟩) 0 = 500 ∧
    (0 : ℚ) * 1000 = 0 ∧ (500 : ℚ) ≠ 0 := by
  refine ⟨?_, by norm_num, by norm_num⟩
  norm_num [computeDelay, BASE_DELAY_MS, MAX_JITTER_MS]

/-- C5 (amended): for every 429 response carrying a *positive*
numeric-seconds `Retry-After` hint, the delay is exactly `hint * 1000`
milliseconds, ignoring exponential growth and jitter for that attempt; a
429 whose hint is unparsable, or parses to zero or a negative number,
falls back to exponential backoff plus jitter. -/
theorem C5_retry_after_hint_delay
    (attempt : Nat) (r : Resp) (random seconds : ℚ) (h429 : r.status = 429) :
    (r.retryAfter = RetryAfter.value seconds → 0 < seconds →
      computeDelay attempt (some r) random = seconds * 1000) ∧
    (r.retryAfter = RetryAfter.notANumber →
      computeDelay attempt (some r) random =
        BASE_DELAY_MS * 2 ^ attempt + random * MAX_JITTER_MS) ∧
    (r.retryAfter = RetryAfter.value seconds → seconds ≤ 0 →
      computeDelay attempt (some r) random =
        BASE_DELAY_MS * 2 ^ attempt + random * MAX_JITTER_MS) := by
  refine ⟨?_, ?_, ?_⟩
  · intro hra hpos
    simp [computeDelay, h429, hra, hpos]
  · intro hra
    simp [computeDelay, h429, hra]
  · intro hra hnonpos
    simp [computeDelay, h429, hra, not_lt.mpr hnonpos]

/-- Witness for C5: `Retry-After: 2` on a 429 gives a 2000 ms delay at
attempt 0 even with `random = 1`; an unparsable hint at attempt 1 with
`random = 0` gives the exponential fallback 1000 ms. -/
theorem C5_witness :
    ((⟨429, "Too Many Requests", RetryAfter.value 2⟩ : Resp).retryAfter =
        RetryAfter.value 2 → (0 : ℚ) < 2 →
      computeDelay 0 (some ⟨429, "Too Many Requests", RetryAfter.value 2⟩) 1 =
        2 * 1000) ∧
    ((⟨429, "Too Many Requests", RetryAfter.value 2⟩ : Resp).retryAfter =
        RetryAfter.notANumber →
      computeDelay 0 (some ⟨429, "Too Many Requests", RetryAfter.value 2⟩) 1 =
        BASE_DELAY_MS * 2 ^ 0 + 1 * MAX_JITTER_MS) ∧
    ((⟨429, "Too Many Requests", RetryAfter.value 2⟩ : Resp).retryAfter =
        RetryAfter.value 2 → (2 : ℚ) ≤ 0 →
      computeDelay 0 (some ⟨429, "Too Many Requests", RetryAfter.value 2⟩) 1 =
        BASE_DELAY_MS * 2 ^ 0 + 1 * MAX_JITTER_MS) :=
  C5_retry_after_hint_delay 0 ⟨429, "Too Many Requests", RetryAfter.value 2⟩ 1 2 rfl

/-- C6: for every 4xx response status except 429 received on the first
attempt, the logical request performs exactly one network call, never
retries, and the executor returns the response as-is. -/
theorem C6_plain_4xx_single_call
    (fetches : Nat → FetchOutcome) (sleepAborts : Nat → Bool) (r : Resp)
    (h : fetches 0 = FetchOutcome.resp r)
    (h4 : 400 ≤ r.status) (h5 : r.status < 500) (h429 : r.status ≠ 429) :
    fetchWithRetry fetches sleepAborts = (ExecResult.response r, 1) := by
  show fetchLoop fetches sleepAborts 0 4 = (ExecResult.response r, 1)
  rw [show (4:Nat) = 3 + 1 from rfl]
  exact fetchLoop_return_now fetches sleepAborts 0 3 r h
    (returnImmediately_true_of_plain_4xx r.status h4 h5 h429)

/-- Witness for C6: a 404 on the first attempt is returned after exactly
one network call. -/
theorem C6_witness :
    fetchWithRetry (fun _ => FetchOutcome.resp ⟨404, "Not Found", RetryAfter.absent⟩)
      (fun _ => false)
      = (ExecResult.response ⟨404, "Not Found", RetryAfter.absent⟩, 1) :=
  C6_plain_4xx_single_call _ _ ⟨404, "Not Found", RetryAfter.absent⟩ rfl
    (by decide) (by decide) (by decide)

/-- C7: with the jitter source forced to zero and no rate-limit hint
present, the delay computed before the nth retry equals
`BASE_DELAY_MS * 2^n` with `BASE_DELAY_MS = 500` — so 500, 1000 and
2000 ms for the three retries. -/
theorem C7_zero_jitter_exponential_backoff :
    (∀ n : Nat, computeDelay n none 0 = BASE_DELAY_MS * 2 ^ n) ∧
    BASE_DELAY_MS = 500 ∧
    computeDelay 0 none 0 = 500 ∧ computeDelay 1 none 0 = 1000 ∧
    computeDelay 2 none 0 = 2000 := by
  refine ⟨fun n => by simp [computeDelay], rfl, ?_, ?_, ?_⟩ <;>
    norm_num [computeDelay, BASE_DELAY_MS, MAX_JITTER_MS]

/-- C8: if the shared cancellation handle is aborted mid-flight at attempt
`k` (after `k` retried attempts), or during the retry sleep following a
retryable attempt `k`, the request surfaces the cancellation error
immediately — it is never treated as retryable — and exactly `k + 1`
network calls were made, so no further network call happens for that
logical request. -/
theorem C8_abort_stops_request
    (fetches : Nat → FetchOutcome) (sleepAborts : Nat → Bool) (k : Nat)
    (hk : k ≤ MAX_RETRIES)
    (hpre : ∀ i, i < k → retryableOutcome (fetches i) = true ∧ sleepAborts i = false) :
    (fetches k = FetchOutcome.abortErr →
      fetchWithRetry fetches sleepAborts = (ExecResult.abortError, k + 1)) ∧
    (k < MAX_RETRIES → retryableOutcome (fetches k) = true → sleepAborts k = true →
      fetchWithRetry fetches sleepAborts = (ExecResult.abortError, k + 1)) := by
  simp only [MAX_RETRIES] at hk
  interval_cases k
  · constructor
    · intro h
      exact fetchLoop_abort_now fetches sleepAborts 0 4 (by omega) h
    · intro _ hr hsl
      show fetchLoop fetches sleepAborts 0 4 = (ExecResult.abortError, 1)
      rw [show (4:Nat) = 3 + 1 from rfl]
      exact fetchLoop_sleep_abort fetches sleepAborts 0 3 hr hsl (by omega)
  · constructor
    · intro h
      show fetchLoop fetches sleepAborts 0 4 = (ExecResult.abortError, 2)
      rw [show (4:Nat) = 3 + 1 from rfl,
        fetchLoop_retry_step fetches sleepAborts 0 3 (hpre 0 (by omega)).1
          (hpre 0 (by omega)).2 (by omega),
        fetchLoop_abort_now fetches sleepAborts 1 3 (by omega) h]
    · intro _ hr hsl
      show fetchLoop fetches sleepAborts 0 4 = (ExecResult.abortError, 2)
      rw [show (4:Nat) = 3 + 1 from rfl,
        fetchLoop_retry_step fetches sleepAborts 0 3 (hpre 0 (by omega)).1
          (hpre 0 (by omega)).2 (by omega),
        show (3:Nat) = 2 + 1 from rfl,
        fetchLoop_sleep_abort fetches sleepAborts 1 2 hr hsl (by omega)]
  · constructor
    · intro h
      show fetchLoop fetches sleepAborts 0 4 = (ExecResult.abortError, 3)
      rw [show (4:Nat) = 3 + 1 from rfl,
        fetchLoop_retry_step fetches sleepAborts 0 3 (hpre 0 (by omega)).1
          (hpre 0 (by omega)).2 (by omega),
        show (3:Nat) = 2 + 1 from rfl,
        fetchLoop_retry_step fetches sleepAborts 1 2 (hpre 1 (by omega)).1
          (hpre 1 (by omega)).2 (by omega),
        fetchLoop_abort_now fetches sleepAborts 2 2 (by omega) h]
    · intro _ hr hsl
      show fetchLoop fetches sleepAborts 0 4 = (ExecResult.abortError, 3)
      rw [show (4:Nat) = 3 + 1 from rfl,
        fetchLoop_retry_step fetches sleepAborts 0 3 (hpre 0 (by omega)).1
          (hpre 0 (by omega)).2 (by omega),
        show (3:Nat) = 2 + 1 from rfl,
        fetchLoop_retry_step fetches sleepAborts 1 2 (hpre 1 (by omega)).1
          (hpre 1 (by omega)).2 (by omega),
        show (2:Nat) = 1 + 1 from rfl,
        fetchLoop_sleep_abort fetches sleepAborts 2 1 hr hsl (by omega)]
  · constructor
    · intro h
      show fetchLoop fetches sleepAborts 0 4 = (ExecResult.abortError, 4)
      rw [show (4:Nat) = 3 + 1 from rfl,
        fetchLoop_retry_step fetches sleepAborts 0 3 (hpre 0 (by omega)).1
          (hpre 0 (by omega)).2 (by omega),
        show (3:Nat) = 2 + 1 from rfl,
        fetchLoop_retry_step fetches sleepAborts 1 2 (hpre 1 (by omega)).1
          (hpre 1 (by omega)).2 (by omega),
        show (2:Nat) = 1 + 1 from rfl,
        fetchLoop_retry_step fetches sleepAborts 2 1 (hpre 2 (by omega)).1
          (hpre 2 (by omega)).2 (by omega),
        fetchLoop_abort_now fetches sleepAborts 3 1 (by omega) h]
    · intro hlt
      simp [MAX_RETRIES] at hlt

/-- Witness for C8: two 500 responses retried without sleep aborts, then an
aborted third fetch — the request ends with the cancellation error after
exactly three network calls. -/
theorem C8_witness :
    ((fun i => if i < 2 then FetchOutcome.resp ⟨500, "Server Error", RetryAfter.absent⟩
        else FetchOutcome.abortErr) 2 = FetchOutcome.abortErr →
      fetchWithRetry
        (fun i => if i < 2 then FetchOutcome.resp ⟨500, "Server Error", RetryAfter.absent⟩
          else FetchOutcome.abortErr)
        (fun _ => false) = (ExecResult.abortError, 2 + 1)) ∧
    (2 < MAX_RETRIES →
      retryableOutcome
        ((fun i => if i < 2 then FetchOutcome.resp ⟨500, "Server Error", RetryAfter.absent⟩
          else FetchOutcome.abortErr) 2) = true →
      (fun _ : Nat => false) 2 = true →
      fetchWithRetry
        (fun i => if i < 2 then FetchOutcome.resp ⟨500, "Server Error", RetryAfter.absent⟩
          else FetchOutcome.abortErr)
        (fun _ => false) = (ExecResult.abortError, 2 + 1)) :=
  C8_abort_stops_request
    (fun i => if i < 2 then FetchOutcome.resp ⟨500, "Server Error", RetryAfter.absent⟩
      else FetchOutcome.abortErr)
    (fun _ => false) 2 (by decide) (fun i hi => by interval_cases i <;> exact ⟨by decide, rfl⟩)

/-! ## Shared lemmas about the event batcher -/

/-- Truncation never empties a non-empty queue: it keeps the newest
`MAX_QUEUE_SIZE` elements. -/
lemma truncateQueue_ne_nil (l : List QueuedEvent) (h : l ≠ []) :
    truncateQueue l ≠ [] := by
  unfold truncateQueue
  by_cases hl : l.length > MAX_QUEUE_SIZE
  · rw [if_pos hl]
    intro hc
    have hlen := congrArg List.length hc
    simp [List.length_drop, MAX_QUEUE_SIZE] at hlen
    simp [MAX_QUEUE_SIZE] at hl
    omega
  · rw [if_neg hl]
    exact h

/-- The two round-trip branches of a flush on a non-empty queue, with the
timer ending armed exactly when events arrived during the round trip. -/
lemma flushRun_eq_of_ne (st : AnalyticsState) (post : Except String BatchResp)
    (arrivals : List QueuedEvent) (h : st.queue ≠ []) :
    flushRun st post arrivals =
      match post with
      | Except.ok _ =>
        ⟨arrivals, !arrivals.isEmpty, st.unloadHandler⟩
      | Except.error _ =>
        ⟨truncateQueue (st.queue ++ arrivals), !arrivals.isEmpty, st.unloadHandler⟩ := by
  have hE : st.queue.isEmpty = false := by
    cases hq : st.queue with
    | nil => exact absurd hq h
    | cons a t => rfl
  unfold flushRun
  cases post <;> simp [hE]

/-- With no events arriving during the round trip, a flush leaves the
timer cleared in every branch. -/
lemma flushRun_nil_arrivals_timer (st : AnalyticsState) (post : Except String BatchResp) :
    (flushRun st post []).flushTimer = false := by
  unfold flushRun
  by_cases h : st.queue.isEmpty <;> cases post <;> simp [h]

/-- On a non-empty queue, the post-flush timer is armed iff events arrived
during the round trip (re-armed by the interleaved track's 0-to-1 push). -/
lemma flushRun_timer_of_ne (st : AnalyticsState) (post : Except String BatchResp)
    (arrivals : List QueuedEvent) (h : st.queue ≠ []) :
    (flushRun st post arrivals).flushTimer = !arrivals.isEmpty := by
  rw [flushRun_eq_of_ne st post arrivals h]
  cases post <;> rfl

/-- Whenever a flush ends with the timer armed, its queue is non-empty
(the arming arrival is queued, and a failed flush also keeps its
snapshot). -/
lemma flushRun_timer_imp_queue (st : AnalyticsState) (post : Except String BatchResp)
    (arrivals : List QueuedEvent) :
    (flushRun st post arrivals).flushTimer = true → (flushRun st post arrivals).queue ≠ [] := by
  by_cases hq : st.queue = []
  · intro hT
    have hfalse : (flushRun st post arrivals).flushTimer = false := by
      unfold flushRun
      simp [hq]
    rw [hfalse] at hT
    cases hT
  · rw [flushRun_eq_of_ne st post arrivals hq]
    cases post with
    | ok b =>
      intro hT hc
      dsimp only at hT hc
      rw [hc] at hT
      simp at hT
    | error e =>
      intro _
      dsimp only
      exact truncateQueue_ne_nil _ (fun hc => hq (List.append_eq_nil.mp hc).1)

/-- Either a flush leaves some event queued or it leaves the timer
cleared. -/
lemma flushRun_shape (st : AnalyticsState) (post : Except String BatchResp)
    (arrivals : List QueuedEvent) :
    (flushRun st post arrivals).queue ≠ [] ∨ (flushRun st post arrivals).flushTimer = false := by
  cases ht : (flushRun st post arrivals).flushTimer with
  | false => exact Or.inr rfl
  | true => exact Or.inl (flushRun_timer_imp_queue st post arrivals ht)

/-- A `track` call that returns normally leaves either a non-empty queue or
a cleared timer (the latter when it triggered a batch-size flush). -/
lemma track_ok_shape (st : AnalyticsState) (n : String) (p : List (String × String))
    (post : Except String BatchResp) (arrivals : List QueuedEvent) (s' : AnalyticsState)
    (h : track st n p post arrivals = Except.ok s') :
    s'.queue ≠ [] ∨ s'.flushTimer = false := by
  unfold track at h
  dsimp only at h
  split at h
  · exact absurd h (by simp)
  · split at h
    · exact absurd h (by simp)
    · split at h
      · unfold flush at h
        have hs := (Except.ok.injEq _ _).mp h
        rw [← hs]
        exact flushRun_shape _ _ _
      · left
        have hs := (Except.ok.injEq _ _).mp h
        rw [← hs]
        simp

/-- Each batcher step preserves "an armed timer implies a non-empty
queue". -/
lemma applyStep_preserves (st : AnalyticsState) (s : AStep)
    (h : st.flushTimer = true → st.queue ≠ []) :
    (applyStep st s).flushTimer = true → (applyStep st s).queue ≠ [] := by
  cases s with
  | trackS n p post arr =>
    dsimp [applyStep]
    cases htr : track st n p post arr with
    | ok s1 =>
      rcases track_ok_shape st n p post arr s1 htr with hq | ht
      · exact fun _ => hq
      · intro hT; rw [ht] at hT; cases hT
    | error m => exact h
  | flushS post arr =>
    dsimp [applyStep, flush]
    exact flushRun_timer_imp_queue st post arr
  | timerS post arr =>
    dsimp [applyStep]
    split
    · dsimp [flush]
      exact flushRun_timer_imp_queue _ post arr
    · exact h

lemma runSteps_timer_inv (steps : List AStep) : ∀ st : AnalyticsState,
    (st.flushTimer = true → st.queue ≠ []) →
    ((runSteps st steps).flushTimer = true → (runSteps st steps).queue ≠ []) := by
  induction steps with
  | nil => exact fun st h => h
  | cons s rest ih =>
    intro st h
    exact ih (applyStep st s) (applyStep_preserves st s h)

/-- A valid `track` on an empty queue with no armed timer arms the timer
and leaves exactly the one new event queued. -/
lemma track_from_empty (u : Bool) (n : String) (p : List (String × String))
    (post : Except String BatchResp) (arrivals : List QueuedEvent) (s' : AnalyticsState)
    (h : track ⟨[], false, u⟩ n p post arrivals = Except.ok s') :
    s'.flushTimer = true ∧ s'.queue.length = 1 := by
  unfold track at h
  dsimp only at h
  split at h
  · exact absurd h (by simp)
  · split at h
    · exact absurd h (by simp)
    · simp [BATCH_SIZE] at h
      rw [← h]
      exact ⟨rfl, rfl⟩

/-! ## Claim theorems: event batcher -/

/-- C2 counterexample: a caller-invoked `Analytics.flush()` whose batched
POST fails does NOT propagate the failure — on this concrete failing POST
the call resolves normally (`Except.ok`, the events re-queued), where the
claim requires it to reject with the failure (`Except.error`). The `catch`
in `flush` swallows every POST failure regardless of who invoked it. -/
theorem C2_counterexample :
    flush ⟨[⟨"custom.signup", []⟩], true, true⟩ (Except.error "Network error") [] =
      Except.ok ⟨[⟨"custom.signup", []⟩], false, true⟩ := rfl

/-- C2 (amended): a flush failure never escapes as an exception from
either path — the failure is captured and the events re-queued both when
the flush is triggered internally by `track()` (a `track` passing
validation always returns normally, whatever the POST outcome) and when
`flush()` is invoked directly by a caller (it always resolves). -/
theorem C2_flush_failure_never_escapes :
    (∀ (st : AnalyticsState) (post : Except String BatchResp) (arrivals : List QueuedEvent),
      ∃ s', flush st post arrivals = Except.ok s') ∧
    (∀ (st : AnalyticsState) (n : String) (p : List (String × String))
      (post : Except String BatchResp) (arrivals : List QueuedEvent),
      trimEmpty n = false → eventNameMatches (canonicalEventName n) = true →
      ∃ s', track st n p post arrivals = Except.ok s') := by
  constructor
  · exact fun st post arrivals => ⟨flushRun st post arrivals, rfl⟩
  · intro st n p post arrivals h1 h2
    unfold track
    dsimp only
    rw [if_neg (by simp [h1]), if_neg (by simp [h2])]
    split
    · exact ⟨_, rfl⟩
    · exact ⟨_, rfl⟩

/-- Witness for C2: a direct flush with a failing POST returns normally,
and a tenth `track` (triggering the batch-size flush) with a failing POST
also returns normally. -/
theorem C2_witness :
    (∃ s', flush initState (Except.error "Network error") [] = Except.ok s') ∧
    (∃ s', track ⟨List.replicate 9 ⟨"custom.e", []⟩, true, true⟩ "signup" []
        (Except.error "Network error") [] = Except.ok s') :=
  ⟨C2_flush_failure_never_escapes.1 initState (Except.error "Network error") [],
   C2_flush_failure_never_escapes.2 ⟨List.replicate 9 ⟨"custom.e", []⟩, true, true⟩
     "signup" [] (Except.error "Network error") [] (by decide) (by decide)⟩

/-- C3 counterexample: the claimed "timer exists iff the queue is
non-empty and no flush is scheduled sooner" fails in a reachable state:
after `track("signup")` followed by a `flush()` whose POST fails, the
re-queued event leaves the queue non-empty, nothing is scheduled, and yet
no timer is armed (flush cleared it and the failure path does not re-arm). -/
theorem C3_counterexample :
    (runSteps initState
      [AStep.trackS "signup" [] (Except.ok ⟨true, none, []⟩) [],
       AStep.flushS (Except.error "Network error") []]).queue ≠ [] ∧
    (runSteps initState
      [AStep.trackS "signup" [] (Except.ok ⟨true, none, []⟩) [],
       AStep.flushS (Except.error "Network error") []]).flushTimer = false := by
  constructor
  · decide
  · rfl

/-- C3 (amended): in every reachable state of the batcher an armed flush
timer implies a non-empty queue (but not conversely: after a failed flush
the queue can be non-empty with no timer); the flush itself clears the
timer — with no events arriving during its round trip it ends cleared —
and the timer is armed exactly by a `track` making the queue go from empty
to non-empty: on a fresh batcher, and equally when a `track` interleaved
during a flush's round trip pushes the first arrival onto the
spliced-empty queue, so a flush ends with the timer armed iff events
arrived during its round trip. -/
theorem C3_timer_invariant :
    (∀ steps : List AStep, (runSteps initState steps).flushTimer = true →
      (runSteps initState steps).queue ≠ []) ∧
    (∀ (st : AnalyticsState) (post : Except String BatchResp),
      (flushRun st post []).flushTimer = false) ∧
    (∀ (st : AnalyticsState) (post : Except String BatchResp) (arrivals : List QueuedEvent),
      st.queue ≠ [] →
      (flushRun st post arrivals).flushTimer = !arrivals.isEmpty) ∧
    (∀ (u : Bool) (n : String) (p : List (String × String))
      (post : Except String BatchResp) (arrivals : List QueuedEvent) (s' : AnalyticsState),
      track ⟨[], false, u⟩ n p post arrivals = Except.ok s' →
      s'.flushTimer = true ∧ s'.queue.length = 1) := by
  refine ⟨?_, flushRun_nil_arrivals_timer, flushRun_timer_of_ne, track_from_empty⟩
  intro steps
  exact runSteps_timer_inv steps initState (fun h => by cases h)

/-- Witness for C3: after a single `track` the timer is armed and the queue
non-empty; a concrete flush with no interleaved arrivals ends with the
timer cleared; one with an interleaved arrival ends with it armed; a
concrete `track` from the empty state arms the timer with one event
queued. -/
theorem C3_witness :
    (runSteps initState [AStep.trackS "signup" [] (Except.ok ⟨true, none, []⟩) []]).queue ≠ [] ∧
    (flushRun initState (Except.ok ⟨true, none, []⟩) []).flushTimer = false ∧
    (flushRun ⟨[⟨"custom.a", []⟩], true, true⟩ (Except.error "Network error")
        [⟨"custom.b", []⟩]).flushTimer =
      !([⟨"custom.b", []⟩] : List QueuedEvent).isEmpty ∧
    ((⟨[⟨"custom.signup", []⟩], true, true⟩ : AnalyticsState).flushTimer = true ∧
      (⟨[⟨"custom.signup", []⟩], true, true⟩ : AnalyticsState).queue.length = 1) :=
  ⟨C3_timer_invariant.1 [AStep.trackS "signup" [] (Except.ok ⟨true, none, []⟩) []] rfl,
   C3_timer_invariant.2.1 initState (Except.ok ⟨true, none, []⟩),
   C3_timer_invariant.2.2.1 ⟨[⟨"custom.a", []⟩], true, true⟩ (Except.error "Network error")
     [⟨"custom.b", []⟩] (by decide),
   C3_timer_invariant.2.2.2 true "signup" [] (Except.ok ⟨true, none, []⟩) []
     ⟨[⟨"custom.signup", []⟩], true, true⟩ rfl⟩

/-- C4: on every flush whose POST fails, the snapshot taken at the start of
the flush is reinserted at the front of the queue — in its original
relative order, ahead of the events that arrived during the failed round
trip — and the queue is then truncated from the oldest end (the front)
exactly when its length exceeds `MAX_QUEUE_SIZE = 1000`. (The timer in the
resulting state is armed iff events arrived during the round trip — it was
re-armed by their interleaved `track`, not by the failure path.) -/
theorem C4_failed_flush_requeues_front (st : AnalyticsState) (e : String)
    (arrivals : List QueuedEvent) (h : st.queue ≠ []) :
    flushRun st (Except.error e) arrivals =
      ⟨truncateQueue (st.queue ++ arrivals), !arrivals.isEmpty, st.unloadHandler⟩ ∧
    (∀ l : List QueuedEvent, l.length ≤ MAX_QUEUE_SIZE → truncateQueue l = l) ∧
    (∀ l : List QueuedEvent, MAX_QUEUE_SIZE < l.length →
      truncateQueue l = l.drop (l.length - MAX_QUEUE_SIZE) ∧
      (truncateQueue l).length = MAX_QUEUE_SIZE) := by
  refine ⟨?_, ?_, ?_⟩
  · exact flushRun_eq_of_ne st (Except.error e) arrivals h
  · intro l hl
    simp [truncateQueue, Nat.not_lt.mpr hl]
  · intro l hl
    refine ⟨by simp [truncateQueue, hl], ?_⟩
    simp [truncateQueue, hl]
    omega

/-- Witness for C4: a failed flush of one snapshot event with one
interleaved arrival yields snapshot-then-arrival, with the timer re-armed
by the arrival's track. -/
theorem C4_witness :
    flushRun ⟨[⟨"custom.a", []⟩], true, true⟩ (Except.error "Network error")
        [⟨"custom.b", []⟩] =
      ⟨truncateQueue ([⟨"custom.a", []⟩] ++ [⟨"custom.b", []⟩]),
        !([⟨"custom.b", []⟩] : List QueuedEvent).isEmpty, true⟩ ∧
    (∀ l : List QueuedEvent, l.length ≤ MAX_QUEUE_SIZE → truncateQueue l = l) ∧
    (∀ l : List QueuedEvent, MAX_QUEUE_SIZE < l.length →
      truncateQueue l = l.drop (l.length - MAX_QUEUE_SIZE) ∧
      (truncateQueue l).length = MAX_QUEUE_SIZE) :=
  C4_failed_flush_requeues_front ⟨[⟨"custom.a", []⟩], true, true⟩ "Network error"
    [⟨"custom.b", []⟩] (by decide)

/-- C9: a `track(name)` whose name is all-whitespace (or empty), or whose
auto-prefixed form fails `^custom\.[a-z0-9_]+$`, raises a validation error
before any queuing and leaves the state (hence the queue) unchanged, so the
invalid event never reaches a flushed batch; a valid name lacking the
`custom.` marker is enqueued with it prepended, and a name already carrying
it is not double-prefixed. -/
theorem C9_track_validation (st : AnalyticsState) (n : String)
    (p : List (String × String)) (post : Except String BatchResp)
    (arrivals : List QueuedEvent) :
    ((trimEmpty n = true ∨ eventNameMatches (canonicalEventName n) = false) →
      (∃ m, track st n p post arrivals = Except.error m) ∧
      applyStep st (AStep.trackS n p post arrivals) = st) ∧
    (trimEmpty n = false → eventNameMatches (canonicalEventName n) = true →
      st.queue.length + 1 < BATCH_SIZE →
      track st n p post arrivals =
        Except.ok ⟨st.queue ++ [⟨canonicalEventName n, p⟩],
          (if st.queue.length + 1 = 1 && !st.flushTimer then true else st.flushTimer),
          st.unloadHandler⟩) ∧
    (startsWithCustom n = false → canonicalEventName n = "custom." ++ n) ∧
    (startsWithCustom n = true → canonicalEventName n = n) := by
  refine ⟨?_, ?_, ?_, ?_⟩
  · intro h
    have herr : ∃ m, track st n p post arrivals = Except.error m := by
      by_cases h1 : trimEmpty n = true
      · exact ⟨_, by unfold track; rw [if_pos h1]⟩
      · have h2 : eventNameMatches (canonicalEventName n) = false := by
          rcases h with h | h
          · exact absurd h h1
          · exact h
        refine ⟨"Tolinku: event name \x22" ++ canonicalEventName n ++ "\x22 is invalid", ?_⟩
        unfold track
        dsimp only
        rw [if_neg h1, if_pos (by simp [h2])]
    obtain ⟨m, hm⟩ := herr
    exact ⟨⟨m, hm⟩, by dsimp [applyStep]; rw [hm]⟩
  · intro h1 h2 h3
    unfold track
    dsimp only
    rw [if_neg (by simp [h1]), if_neg (by simp [h2]),
      if_neg (by simp [List.length_append]; omega)]
    simp [List.length_append]
  · intro h
    unfold canonicalEventName
    rw [if_neg (by simp [h])]
  · intro h
    unfold canonicalEventName
    rw [if_pos h]

/-- Witness for C9: `track("custom.My-Event")` errors and leaves the state
unchanged; `track("signup")` enqueues `custom.signup` and arms the timer;
`custom.purchase` is not double-prefixed. -/
theorem C9_witness :
    (∃ m, track initState "custom.My-Event" [] (Except.ok ⟨true, none, []⟩) [] =
      Except.error m) ∧
    applyStep initState (AStep.trackS "custom.My-Event" [] (Except.ok ⟨true, none, []⟩) []) =
      initState ∧
    track initState "signup" [] (Except.ok ⟨true, none, []⟩) [] =
      Except.ok ⟨[⟨"custom.signup", []⟩], true, true⟩ ∧
    canonicalEventName "signup" = "custom." ++ "signup" ∧
    canonicalEventName "custom.purchase" = "custom.purchase" := by
  have h1 := C9_track_validation initState "custom.My-Event" [] (Except.ok ⟨true, none, []⟩) []
  have h2 := C9_track_validation initState "signup" [] (Except.ok ⟨true, none, []⟩) []
  have h3 := C9_track_validation initState "custom.purchase" [] (Except.ok ⟨true, none, []⟩) []
  have hinv := h1.1 (Or.inr (by decide))
  exact ⟨hinv.1, hinv.2, h2.2.1 (by decide) (by decide) (by decide),
    h2.2.2.1 (by decide), h3.2.2.2 (by decide)⟩

/-- C10: `flushBeacon` (used by `destroy()` and the beforeunload handler)
drains the queue before checking `navigator.sendBeacon`, so with the beacon
unavailable the drained events are discarded without any delivery and never
re-queued (a failed delivery is likewise ignored: the model's payload is
independent of `sendBeacon`'s ignored boolean result); after `destroy()`
the queue is empty, the timer is cleared and the unload handler detached,
and a repeated `destroy()` fixes the state and sends nothing. -/
theorem C10_beacon_drains_before_check (st : AnalyticsState) (avail : Bool) :
    (flushBeacon st avail).1.queue = [] ∧
    (avail = false → (flushBeacon st avail).2 = none) ∧
    (destroy st avail).1 = ⟨[], false, false⟩ ∧
    (∀ avail2, destroy (destroy st avail).1 avail2 = (⟨[], false, false⟩, none)) := by
  have hfb : (flushBeacon st avail).1.queue = [] := by
    unfold flushBeacon
    cases hq : st.queue with
    | nil => simp [hq]
    | cons a t => cases avail <;> simp [hq]
  have hd1 : (destroy st avail).1 = ⟨[], false, false⟩ := by
    unfold destroy
    dsimp only
    rw [hfb]
  refine ⟨hfb, ?_, hd1, ?_⟩
  · intro ha
    unfold flushBeacon
    cases hq : st.queue with
    | nil => simp [hq]
    | cons a t => simp [hq, ha]
  · intro avail2
    rw [hd1]
    rfl

/-- Witness for C10: destroying with one queued event and no beacon
available discards the event without delivery; a second destroy is a
no-op. -/
theorem C10_witness :
    (flushBeacon ⟨[⟨"custom.a", []⟩], true, true⟩ false).1.queue = [] ∧
    (flushBeacon ⟨[⟨"custom.a", []⟩], true, true⟩ false).2 = none ∧
    (destroy ⟨[⟨"custom.a", []⟩], true, true⟩ false).1 = ⟨[], false, false⟩ ∧
    destroy (destroy ⟨[⟨"custom.a", []⟩], true, true⟩ false).1 true =
      (⟨[], false, false⟩, none) := by
  have h := C10_beacon_drains_before_check ⟨[⟨"custom.a", []⟩], true, true⟩ false
  exact ⟨h.1, h.2.1 rfl, h.2.2.1, h.2.2.2 true⟩

end Tolinku
